import Mathlib

/-
Verification of the CLAP audio analyzer service (services/audio-analyzer-clap/analyzer.py).

The development is a shallow embedding of the service's orchestration layer:

* `CLAPAnalyzer` models the inference gateway (`CLAPAnalyzer` in the source).
  The external model (`laion_clap`) is represented by oracle functions
  `audioModel` / `textModel : String -> Option Vec`; `none` models an exception
  raised inside the model computation (caught by the wrapper, which logs and
  returns `None`), `some emb` a native output vector.  The filesystem is the
  oracle `pathExists : String -> Bool`.
* `process_job` models `Worker._process_job` as a trace of the externally
  visible actions it performs (status writes, the inference call, the upsert),
  together with the exception it may raise.  Connection-level database failures
  abort an iteration of the worker loop and are modelled at the loop level
  (`worker_loop`), not inside `process_job`.
* `mark_failed_row` models the row update performed by `Worker._mark_failed`
  (the SQL UPDATE on the "Track" row).
* `upsertRows` / `store_embedding` model `Worker._store_embedding` (the
  INSERT ... ON CONFLICT on `track_embeddings`, with commit on success and
  rollback on failure).
* `worker_loop` models the `while not stop_event.is_set()` loop of
  `Worker.start`, with each iteration's outcome (normal, `psycopg2.Error`
  together with the fate of the handler's reconnect, other exception) given
  by an oracle; a reconnect that itself raises escapes the handler and ends
  the loop.
* `handle_message` models `TextEmbedHandler._handle_message`, producing the
  list of published (channel, payload) pairs; the payload is modelled as the
  ordered key/value list of the JSON object the handler builds.
-/

namespace Lidify

/-- Vectors produced by the model; float values are modelled as rationals
(no claim depends on floating-point rounding, only on copying and on zeros). -/
abbrev Vec := List ℚ

/-- Source: `MODEL_VERSION = 'laion-clap-music-v1'`. -/
def MODEL_VERSION : String := "laion-clap-music-v1"

/-- Source: `MUSIC_PATH = os.getenv('MUSIC_PATH', '/music')`; the configured
media root, with its default value. -/
def MUSIC_PATH : String := "/music"

/-- Source: the fixed response-channel stem `'audio:text:embed:response:'`;
the per-request response channel is this string followed by the requestId. -/
def RESPONSE_CHANNEL_BASE : String := "audio:text:embed:response:"

/-- Source lines 143-147 and 183-187: if the native output has fewer than 1024
entries, allocate `np.zeros(1024)` and copy the native output into its head;
a native output of 1024 or more entries is returned unchanged. -/
def pad1024 (emb : Vec) : Vec :=
  if emb.length < 1024 then emb ++ List.replicate (1024 - emb.length) 0
  else emb

/-- The inference gateway: `modelLoaded` is `self.model is not None`;
`audioModel`/`textModel` are the external CLAP model as oracles, where `none`
models an exception raised inside the guarded computation. -/
structure CLAPAnalyzer where
  modelLoaded : Bool
  audioModel : String → Option Vec
  textModel : String → Option Vec

/-- Outcome of an embedding call: `raised` models a Python exception
propagating to the caller, `errorSignal` the logged `return None`,
`vector v` a successful return of `v`. -/
inductive EmbedResult where
  | raised (msg : String)
  | errorSignal
  | vector (v : Vec)
deriving DecidableEq

/-- Whitespace characters stripped by Python `str.strip()` (ASCII range). -/
def isPySpace (c : Char) : Bool :=
  c == ' ' || c == '\t' || c == '\n' || c == '\r' || c == '\x0b' || c == '\x0c'

/-- Python `not text or not text.strip()`: true exactly when every character
of the string is whitespace (in particular for the empty string). -/
def isBlank (s : String) : Bool := s.data.all isPySpace

/-- Source: `CLAPAnalyzer.get_audio_embedding` (lines 107-153).  Raises
`RuntimeError` when the model is not loaded; logs and returns `None` when the
path does not exist or the guarded computation raises; otherwise returns the
native output padded to 1024 entries. -/
def get_audio_embedding (a : CLAPAnalyzer) (pathExists : String → Bool)
    (audio_path : String) : EmbedResult :=
  if a.modelLoaded = false then
    EmbedResult.raised "Model not loaded. Call load_model() first."
  else if pathExists audio_path = false then
    EmbedResult.errorSignal
  else
    match a.audioModel audio_path with
    | none => EmbedResult.errorSignal
    | some emb => EmbedResult.vector (pad1024 emb)

/-- Source: `CLAPAnalyzer.get_text_embedding` (lines 155-193).  Raises
`RuntimeError` when the model is not loaded; logs and returns `None` on empty
or whitespace-only text, or when the guarded computation raises; otherwise
returns the native output padded to 1024 entries. -/
def get_text_embedding (a : CLAPAnalyzer) (text : String) : EmbedResult :=
  if a.modelLoaded = false then
    EmbedResult.raised "Model not loaded. Call load_model() first."
  else if isBlank text then
    EmbedResult.errorSignal
  else
    match a.textModel text with
    | none => EmbedResult.errorSignal
    | some emb => EmbedResult.vector (pad1024 emb)

/-- Source line 327: `file_path.replace('\\', '/')`. -/
def normalizeSeps (s : String) : String :=
  String.mk (s.data.map (fun c => if c = '\\' then '/' else c))

/-- Python `s.startswith('/')`: the first character is a slash. -/
def headIsSlash (s : String) : Bool :=
  match s.data with
  | [] => false
  | c :: _ => c == '/'

/-- Python `s.endswith('/')`: the last character is a slash. -/
def lastIsSlash (s : String) : Bool :=
  match s.data.getLast? with
  | some c => c == '/'
  | none => false

/-- POSIX `os.path.join` on two components, as CPython implements it:
an absolute second component replaces the first; otherwise the components are
concatenated, inserting a separator unless the first is empty or already ends
with one. -/
def posixJoin (a b : String) : String :=
  if headIsSlash b then b
  else if a = "" || lastIsSlash a then a ++ b
  else a ++ "/" ++ b

/-- Source lines 326-328: the path handed to `get_audio_embedding`. -/
def resolvePath (file_path : String) : String :=
  posixJoin MUSIC_PATH (normalizeSeps file_path)

/-- A dequeued job: `trackId` is `job.get('trackId')` (`none` when the key is
missing), `filePath` is `job.get('filePath', '')` before the default is
applied. -/
structure Job where
  trackId : Option String
  filePath : Option String
deriving DecidableEq

/-- The externally visible actions `Worker._process_job` performs, in order:
attempted status updates, the inference call, the attempted embedding upsert. -/
inductive Action where
  | setStatus (track_id status : String)
  | markFailed (track_id error : String)
  | upsertEmb (track_id : String) (v : Vec)
  | embedAudio (path : String)
deriving DecidableEq

/-- Result of one `_process_job` call: its action trace and the exception it
raises, if any (`none` when it returns normally). -/
structure JobRun where
  trace : List Action
  raised : Option String
deriving DecidableEq

/-- Source: `Worker._process_job` (lines 303-344).  `jobData = none` models a
`blpop` timeout.  A job whose `trackId` is missing or empty (Python falsy) is
logged and dropped.  Otherwise: write status `processing`, resolve the path,
call the audio embedding; on an error signal mark the track failed; on success
attempt the upsert (its success given by the oracle `storeOk`) and write
`completed` or mark failed accordingly.  A `RuntimeError` from the unloaded
gateway propagates out of `_process_job`. -/
def process_job (a : CLAPAnalyzer) (pathExists : String → Bool) (storeOk : Bool)
    (jobData : Option Job) : JobRun :=
  match jobData with
  | none => ⟨[], none⟩
  | some job =>
    match job.trackId with
    | none => ⟨[], none⟩
    | some track_id =>
      if track_id = "" then ⟨[], none⟩
      else
        let full_path := resolvePath (job.filePath.getD "")
        match get_audio_embedding a pathExists full_path with
        | EmbedResult.raised msg =>
            ⟨[Action.setStatus track_id "processing", Action.embedAudio full_path],
             some msg⟩
        | EmbedResult.errorSignal =>
            ⟨[Action.setStatus track_id "processing", Action.embedAudio full_path,
              Action.markFailed track_id "Failed to generate embedding"], none⟩
        | EmbedResult.vector emb =>
            if storeOk then
              ⟨[Action.setStatus track_id "processing", Action.embedAudio full_path,
                Action.upsertEmb track_id emb,
                Action.setStatus track_id "completed"], none⟩
            else
              ⟨[Action.setStatus track_id "processing", Action.embedAudio full_path,
                Action.upsertEmb track_id emb,
                Action.markFailed track_id "Failed to store embedding"], none⟩

/-- An action is a terminal status write for track `t`: a status update to
`completed` or `failed`, or a `mark_failed` (which writes status `failed`). -/
def isTerminalFor (t : String) : Action → Bool
  | Action.setStatus tid s => tid == t && (s == "completed" || s == "failed")
  | Action.markFailed tid _ => tid == t
  | _ => false

/-- True when the action is not a `processing` status write for track `t`. -/
def notProcessingWrite (t : String) : Action → Bool
  | Action.setStatus tid s => !(tid == t && s == "processing")
  | _ => true

/-- True when, after every terminal status write for `t` in the trace, no
`processing` status write for `t` follows. -/
def noProcessingAfterTerminal (t : String) : List Action → Bool
  | [] => true
  | e :: rest =>
      (if isTerminalFor t e then rest.all (notProcessingWrite t) else true)
      && noProcessingAfterTerminal t rest

/-- Whether `get_audio_embedding` returned a vector (did not signal an error
or raise) at the given input. -/
def embedSucceeded (a : CLAPAnalyzer) (pathExists : String → Bool)
    (p : String) : Bool :=
  match get_audio_embedding a pathExists p with
  | EmbedResult.vector _ => true
  | _ => false

/-- The analysis columns of a "Track" row touched by the worker.
`analysisRetryCount = none` models SQL NULL (the COALESCE case). -/
structure TrackRow where
  analysisStatus : String
  analysisError : Option String
  analysisRetryCount : Option Int
deriving DecidableEq

/-- Python `s[:n]`: the first `n` characters of `s`. -/
def pyTake (s : String) (n : Nat) : String := String.mk (s.data.take n)

/-- Source: the UPDATE of `Worker._mark_failed` (lines 362-380) applied to the
track's row: status `failed`, error truncated with `error[:500]`,
`analysisRetryCount = COALESCE(analysisRetryCount, 0) + 1`. -/
def mark_failed_row (error : String) (row : TrackRow) : TrackRow :=
  { analysisStatus := "failed"
    analysisError := some (pyTake error 500)
    analysisRetryCount := some (row.analysisRetryCount.getD 0 + 1) }

/-- A row of `track_embeddings`. -/
structure EmbRow where
  track_id : String
  embedding : Vec
  model_version : String
  analyzed_at : Nat
deriving DecidableEq

/-- `INSERT ... ON CONFLICT (track_id) DO UPDATE`: replace every row whose key
conflicts (under the primary key there is at most one), else append. -/
def upsertRows (rows : List EmbRow) (new : EmbRow) : List EmbRow :=
  if rows.any (fun r => r.track_id == new.track_id) then
    rows.map (fun r => if r.track_id == new.track_id then new else r)
  else rows ++ [new]

/-- Worker-side view of the database: the `track_embeddings` table and the
number of reconnects performed so far. -/
structure WorkerDB where
  rows : List EmbRow
  reconnects : Nat
deriving DecidableEq

/-- Source: `Worker._store_embedding` (lines 382-408).  `writeOk` is the
oracle for whether the SQL write raises.  On success the upsert is committed
and `True` is returned; on failure the transaction is rolled back (the table
is unchanged) and `False` is returned; in neither case does the routine
reconnect. -/
def store_embedding (writeOk : Bool) (db : WorkerDB) (track_id : String)
    (embedding : Vec) (ts : Nat) : Bool × WorkerDB :=
  if writeOk then
    (true, { db with rows := upsertRows db.rows ⟨track_id, embedding, MODEL_VERSION, ts⟩ })
  else
    (false, db)

/-- Outcome of one `_process_job` call as seen by the worker loop: a normal
return; a `psycopg2.Error`, where `reconnectOk` says whether the
`self.db.reconnect()` performed by the except-handler succeeds or itself
raises (the database still unreachable); or any other exception. -/
inductive IterMode where
  | ok
  | dbError (reconnectOk : Bool)
  | otherError
deriving DecidableEq

/-- Events of the worker loop: iteration `i` ran `_process_job`, the loop
attempted a database reconnect, or the loop slept for `SLEEP_INTERVAL`. -/
inductive WEvent where
  | ranJob (i : Nat)
  | reconnect
  | sleep
deriving DecidableEq

/-- The events one loop iteration contributes, by its outcome: a database
error is answered with a reconnect attempt, followed by a sleep only if the
reconnect succeeds (a reconnect that raises never reaches the `time.sleep`
call after it); any other exception is logged and answered with a sleep; a
normal return contributes nothing further. -/
def iterEvents (i : Nat) (m : IterMode) : List WEvent :=
  match m with
  | IterMode.ok => [WEvent.ranJob i]
  | IterMode.dbError true => [WEvent.ranJob i, WEvent.reconnect, WEvent.sleep]
  | IterMode.dbError false => [WEvent.ranJob i, WEvent.reconnect]
  | IterMode.otherError => [WEvent.ranJob i, WEvent.sleep]

/-- Whether control returns to the `while` loop after the iteration:
`DatabaseConnection.connect()` (lines 203-218) has no exception handling of
its own, so a reconnect that raises inside the `except psycopg2.Error`
handler escapes the loop and kills the worker thread. -/
def survivesIter : IterMode → Bool
  | IterMode.dbError false => false
  | _ => true

/-- Why the loop ended: the stop flag was observed set; an exception escaped
the loop (a reconnect that itself raised); or the observation window (`fuel`)
ran out with the loop still running. -/
inductive ExitReason where
  | stopped
  | crashed
  | fuelExhausted
deriving DecidableEq

/-- Source: the `while not self.stop_event.is_set()` loop of `Worker.start`
(lines 285-296), observed for `fuel` iterations starting at iteration `i`.
`stop` is the stop flag over time, `mode` the outcome of each iteration's
`_process_job` together with the fate of any reconnect the handler performs;
an iteration whose reconnect raises ends the loop as `crashed`. -/
def worker_loop (stop : Nat → Bool) (mode : Nat → IterMode) :
    Nat → Nat → List WEvent × ExitReason
  | 0, _ => ([], ExitReason.fuelExhausted)
  | Nat.succ fuel, i =>
    if stop i then ([], ExitReason.stopped)
    else if survivesIter (mode i) then
      let r := worker_loop stop mode fuel (i + 1)
      (iterEvents i (mode i) ++ r.1, r.2)
    else
      (iterEvents i (mode i), ExitReason.crashed)

/-- JSON values occurring in the text-embed response payload. -/
inductive JVal where
  | null
  | bool (b : Bool)
  | str (s : String)
  | arr (v : Vec)
deriving DecidableEq

/-- A parsed text-embed request: `requestId` is `request.get('requestId')`,
`text` is `request.get('text', '')` before the default is applied. -/
structure TextRequest where
  requestId : Option String
  text : Option String
deriving DecidableEq

/-- A message published to Redis: channel name and JSON-object payload,
modelled as the ordered key/value list the handler builds. -/
structure Published where
  channel : String
  payload : List (String × JVal)
deriving DecidableEq

/-- Source lines 477-482: the response dictionary built by
`TextEmbedHandler._handle_message`.  All four keys are always present;
`embedding` is the vector on success and JSON `null` on failure. -/
def buildResponse (request_id : String) (embedding : Option Vec) :
    List (String × JVal) :=
  [("requestId", JVal.str request_id),
   ("success", JVal.bool embedding.isSome),
   ("embedding", match embedding with
                 | some v => JVal.arr v
                 | none => JVal.null),
   ("modelVersion", JVal.str MODEL_VERSION)]

/-- Source: `TextEmbedHandler._handle_message` (lines 456-492), as the list of
messages it publishes.  A missing or empty (Python falsy) `requestId` is
logged and dropped; an exception from `get_text_embedding` is caught by the
handler's own try/except, publishing nothing; otherwise exactly one response
is published on the channel `RESPONSE_CHANNEL_BASE ++ requestId`. -/
def handle_message (a : CLAPAnalyzer) (req : TextRequest) : List Published :=
  match req.requestId with
  | none => []
  | some request_id =>
    if request_id = "" then []
    else
      match get_text_embedding a (req.text.getD "") with
      | EmbedResult.raised _ => []
      | EmbedResult.errorSignal =>
          [⟨RESPONSE_CHANNEL_BASE ++ request_id, buildResponse request_id none⟩]
      | EmbedResult.vector v =>
          [⟨RESPONSE_CHANNEL_BASE ++ request_id, buildResponse request_id (some v)⟩]

lemma pad1024_spec (emb : Vec) (hw : emb.length ≤ 1024) :
    (pad1024 emb).length = 1024 ∧ (pad1024 emb).take emb.length = emb ∧
      (pad1024 emb).drop emb.length = List.replicate (1024 - emb.length) 0 := by
  unfold pad1024
  by_cases h : emb.length < 1024
  · rw [if_pos h]
    refine ⟨?_, ?_, ?_⟩
    · simp only [List.length_append, List.length_replicate]
      omega
    · exact List.take_left emb _
    · exact List.drop_left emb _
  · rw [if_neg h]
    have hlen : emb.length = 1024 := by omega
    refine ⟨hlen, List.take_length emb, ?_⟩
    rw [List.drop_length, hlen]
    simp

lemma get_audio_embedding_vector_inv (a : CLAPAnalyzer) (pe : String → Bool)
    (s : String) (v : Vec) (h : get_audio_embedding a pe s = EmbedResult.vector v) :
    ∃ emb, a.audioModel s = some emb ∧ v = pad1024 emb := by
  unfold get_audio_embedding at h
  by_cases h1 : a.modelLoaded = false
  · rw [if_pos h1] at h
    exact absurd h (by simp)
  · rw [if_neg h1] at h
    by_cases h2 : pe s = false
    · rw [if_pos h2] at h
      exact absurd h (by simp)
    · rw [if_neg h2] at h
      cases h3 : a.audioModel s with
      | none => rw [h3] at h; exact absurd h (by simp)
      | some emb =>
          rw [h3] at h
          exact ⟨emb, rfl, (EmbedResult.vector.inj h).symm⟩

lemma get_text_embedding_vector_inv (a : CLAPAnalyzer) (s : String) (v : Vec)
    (h : get_text_embedding a s = EmbedResult.vector v) :
    ∃ emb, a.textModel s = some emb ∧ v = pad1024 emb := by
  unfold get_text_embedding at h
  by_cases h1 : a.modelLoaded = false
  · rw [if_pos h1] at h
    exact absurd h (by simp)
  · rw [if_neg h1] at h
    by_cases h2 : isBlank s = true
    · rw [if_pos h2] at h
      exact absurd h (by simp)
    · rw [if_neg h2] at h
      cases h3 : a.textModel s with
      | none => rw [h3] at h; exact absurd h (by simp)
      | some emb =>
          rw [h3] at h
          exact ⟨emb, rfl, (EmbedResult.vector.inj h).symm⟩

/-- A loaded analyzer whose native model always outputs a 1025-wide vector:
wider than the target schema width. -/
def oversizeAnalyzer : CLAPAnalyzer where
  modelLoaded := true
  audioModel := fun _ => some (List.replicate 1025 1)
  textModel := fun _ => some (List.replicate 1025 1)

/-- A loaded analyzer whose native audio output is the 2-wide vector [1, 2]
and whose native text output is the 1-wide vector [3]. -/
def smallAnalyzer : CLAPAnalyzer where
  modelLoaded := true
  audioModel := fun _ => some [(1 : ℚ), 2]
  textModel := fun _ => some [(3 : ℚ)]

/-- Claim C1 fails as stated: with a native model output of width 1025, the
source's padding branch is skipped (it only fires when the width is below
1024) and `get_audio_embedding` returns a 1025-element vector, not a
1024-element one. -/
theorem embed_audio_width_counterexample :
    get_audio_embedding oversizeAnalyzer (fun _ => true) "a.mp3"
      = EmbedResult.vector (List.replicate 1025 (1 : ℚ)) ∧
    (List.replicate 1025 (1 : ℚ)).length ≠ 1024 := by
  constructor
  · have h : pad1024 (List.replicate 1025 (1 : ℚ)) = List.replicate 1025 (1 : ℚ) := by
      unfold pad1024
      rw [if_neg (by simp only [List.length_replicate]; omega)]
    show EmbedResult.vector (pad1024 (List.replicate 1025 (1 : ℚ)))
        = EmbedResult.vector (List.replicate 1025 (1 : ℚ))
    rw [h]
  · simp only [List.length_replicate]
    omega

/-- Claim C1 (amended): for every call of `get_audio_embedding` or
`get_text_embedding` that returns a vector from a native model output of
width W at most 1024, the returned vector has exactly 1024 elements, its
first W elements equal the native output, and its elements at indices
[W, 1024) are exactly zero; a wider native output is returned unchanged
(see the counterexample). -/
theorem embed_output_width (a : CLAPAnalyzer) (pe : String → Bool) (s : String)
    (emb v : Vec) (hw : emb.length ≤ 1024)
    (hcall : (get_audio_embedding a pe s = EmbedResult.vector v ∧
                a.audioModel s = some emb) ∨
             (get_text_embedding a s = EmbedResult.vector v ∧
                a.textModel s = some emb)) :
    v.length = 1024 ∧ v.take emb.length = emb ∧
      v.drop emb.length = List.replicate (1024 - emb.length) 0 := by
  have hv : v = pad1024 emb := by
    rcases hcall with ⟨h, hm⟩ | ⟨h, hm⟩
    · obtain ⟨e, he, hve⟩ := get_audio_embedding_vector_inv a pe s v h
      rw [hm] at he
      rw [hve, Option.some.inj he]
    · obtain ⟨e, he, hve⟩ := get_text_embedding_vector_inv a s v h
      rw [hm] at he
      rw [hve, Option.some.inj he]
  rw [hv]
  exact pad1024_spec emb hw

/-- Witness for the amended claim C1 at the concrete analyzer whose native
audio output is [1, 2]. -/
theorem embed_output_width_witness :
    (pad1024 [(1 : ℚ), 2]).length = 1024 ∧
    (pad1024 [(1 : ℚ), 2]).take ([(1 : ℚ), 2] : Vec).length = [(1 : ℚ), 2] ∧
    (pad1024 [(1 : ℚ), 2]).drop ([(1 : ℚ), 2] : Vec).length
      = List.replicate (1024 - ([(1 : ℚ), 2] : Vec).length) 0 :=
  embed_output_width smallAnalyzer (fun _ => true) "p" [(1 : ℚ), 2]
    (pad1024 [(1 : ℚ), 2]) (by simp) (Or.inl ⟨rfl, rfl⟩)

/-- An analyzer that has not been loaded. -/
def unloadedAnalyzer : CLAPAnalyzer where
  modelLoaded := false
  audioModel := fun _ => none
  textModel := fun _ => none

/-- A loaded analyzer whose guarded model computation always raises (the
oracle returns `none`). -/
def failingAnalyzer : CLAPAnalyzer where
  modelLoaded := true
  audioModel := fun _ => none
  textModel := fun _ => none

/-- Claim C3 fails in its final clause as stated: a call with the model
loaded, an existing path, and a successful computation of native width 1025
returns a vector of 1025 elements, not a 1024-dim one. -/
theorem embed_audio_dim_counterexample :
    get_audio_embedding oversizeAnalyzer (fun _ => true) "b.mp3"
      = EmbedResult.vector (List.replicate 1025 (1 : ℚ)) ∧
    ¬ (List.replicate 1025 (1 : ℚ)).length = 1024 := by
  constructor
  · have h : pad1024 (List.replicate 1025 (1 : ℚ)) = List.replicate 1025 (1 : ℚ) := by
      unfold pad1024
      rw [if_neg (by simp only [List.length_replicate]; omega)]
    show EmbedResult.vector (pad1024 (List.replicate 1025 (1 : ℚ)))
        = EmbedResult.vector (List.replicate 1025 (1 : ℚ))
    rw [h]
  · simp only [List.length_replicate]
    omega

/-- Claim C3 (amended): `get_audio_embedding` raises the not-loaded
`RuntimeError` when called before the model is loaded; returns the logged
error signal (not an exception) when the path does not exist, and likewise
when the internal computation fails, so the caller's loop can continue;
otherwise it returns the padded native output, which has exactly 1024
elements whenever the native width is at most 1024. -/
theorem embed_audio_error_taxonomy (a : CLAPAnalyzer) (pe : String → Bool)
    (p : String) :
    (a.modelLoaded = false →
      get_audio_embedding a pe p
        = EmbedResult.raised "Model not loaded. Call load_model() first.") ∧
    (a.modelLoaded = true → pe p = false →
      get_audio_embedding a pe p = EmbedResult.errorSignal) ∧
    (a.modelLoaded = true → pe p = true → a.audioModel p = none →
      get_audio_embedding a pe p = EmbedResult.errorSignal) ∧
    (∀ emb : Vec, a.modelLoaded = true → pe p = true → a.audioModel p = some emb →
      get_audio_embedding a pe p = EmbedResult.vector (pad1024 emb) ∧
        (emb.length ≤ 1024 → (pad1024 emb).length = 1024)) := by
  refine ⟨?_, ?_, ?_, ?_⟩
  · intro h1
    unfold get_audio_embedding
    rw [if_pos h1]
  · intro h1 h2
    unfold get_audio_embedding
    rw [if_neg (by simp [h1]), if_pos h2]
  · intro h1 h2 h3
    unfold get_audio_embedding
    rw [if_neg (by simp [h1]), if_neg (by simp [h2]), h3]
  · intro emb h1 h2 h3
    constructor
    · unfold get_audio_embedding
      rw [if_neg (by simp [h1]), if_neg (by simp [h2]), h3]
    · intro hw
      exact (pad1024_spec emb hw).1

/-- Witness for the amended claim C3: all four branches at concrete
analyzers, paths and filesystems. -/
theorem embed_audio_error_taxonomy_witness :
    get_audio_embedding unloadedAnalyzer (fun _ => true) "x.mp3"
      = EmbedResult.raised "Model not loaded. Call load_model() first." ∧
    get_audio_embedding smallAnalyzer (fun _ => false) "x.mp3"
      = EmbedResult.errorSignal ∧
    get_audio_embedding failingAnalyzer (fun _ => true) "x.mp3"
      = EmbedResult.errorSignal ∧
    get_audio_embedding smallAnalyzer (fun _ => true) "x.mp3"
      = EmbedResult.vector (pad1024 [(1 : ℚ), 2]) ∧
    (pad1024 [(1 : ℚ), 2]).length = 1024 :=
  ⟨(embed_audio_error_taxonomy unloadedAnalyzer (fun _ => true) "x.mp3").1 rfl,
   (embed_audio_error_taxonomy smallAnalyzer (fun _ => false) "x.mp3").2.1 rfl rfl,
   (embed_audio_error_taxonomy failingAnalyzer (fun _ => true) "x.mp3").2.2.1 rfl rfl rfl,
   ((embed_audio_error_taxonomy smallAnalyzer (fun _ => true) "x.mp3").2.2.2
      [(1 : ℚ), 2] rfl rfl rfl).1,
   ((embed_audio_error_taxonomy smallAnalyzer (fun _ => true) "x.mp3").2.2.2
      [(1 : ℚ), 2] rfl rfl rfl).2 (by simp)⟩

lemma isTerminalFor_processing (t : String) :
    isTerminalFor t (Action.setStatus t "processing") = false := by
  simp only [isTerminalFor, beq_self_eq_true, Bool.true_and]
  decide

lemma isTerminalFor_completed (t : String) :
    isTerminalFor t (Action.setStatus t "completed") = true := by
  simp [isTerminalFor]

lemma isTerminalFor_markFailed (t e : String) :
    isTerminalFor t (Action.markFailed t e) = true := by
  simp [isTerminalFor]

lemma notProcessingWrite_completed (t : String) :
    notProcessingWrite t (Action.setStatus t "completed") = true := by
  simp only [notProcessingWrite, beq_self_eq_true, Bool.true_and]
  decide

lemma get_audio_embedding_raised_inv (a : CLAPAnalyzer) (pe : String → Bool)
    (s msg : String) (h : get_audio_embedding a pe s = EmbedResult.raised msg) :
    a.modelLoaded = false := by
  unfold get_audio_embedding at h
  by_cases h1 : a.modelLoaded = false
  · exact h1
  · rw [if_neg h1] at h
    by_cases h2 : pe s = false
    · rw [if_pos h2] at h
      exact absurd h (by simp)
    · rw [if_neg h2] at h
      cases h3 : a.audioModel s with
      | none => rw [h3] at h; exact absurd h (by simp)
      | some emb => rw [h3] at h; exact absurd h (by simp)

/-- Claim C2: for every dequeued job with a non-empty trackId, processed with
the model loaded, `_process_job` returns normally, its trace starts with the
`processing` status write followed by the inference call, it contains exactly
one terminal status write for that track, that write is the `completed`
status write exactly when the embedding succeeded and the upsert succeeded
(every other outcome is a `mark_failed`), and no `processing` write for the
track follows a terminal write within the same execution. -/
theorem worker_job_status_protocol (a : CLAPAnalyzer) (pe : String → Bool)
    (storeOk : Bool) (job : Job) (t : String)
    (hload : a.modelLoaded = true) (ht : job.trackId = some t) (hne : ¬ t = "") :
    (process_job a pe storeOk (some job)).raised = none ∧
    (∃ rest, (process_job a pe storeOk (some job)).trace
        = Action.setStatus t "processing"
          :: Action.embedAudio (resolvePath (job.filePath.getD "")) :: rest) ∧
    ((process_job a pe storeOk (some job)).trace.filter (isTerminalFor t)).length
        = 1 ∧
    (((process_job a pe storeOk (some job)).trace.filter (isTerminalFor t))
        = [Action.setStatus t "completed"]
      ↔ (embedSucceeded a pe (resolvePath (job.filePath.getD "")) = true ∧
           storeOk = true)) ∧
    noProcessingAfterTerminal t (process_job a pe storeOk (some job)).trace
        = true := by
  obtain ⟨tid, fp⟩ := job
  have ht2 : tid = some t := ht
  subst ht2
  cases hr : get_audio_embedding a pe (resolvePath (fp.getD "")) with
  | raised msg =>
      have hf := get_audio_embedding_raised_inv a pe _ msg hr
      rw [hf] at hload
      exact absurd hload (by decide)
  | errorSignal =>
      have hp2 : process_job a pe storeOk (some ⟨some t, fp⟩)
          = ⟨[Action.setStatus t "processing",
              Action.embedAudio (resolvePath (fp.getD "")),
              Action.markFailed t "Failed to generate embedding"], none⟩ := by
        unfold process_job
        simp only [if_neg hne]
        rw [hr]
      rw [hp2]
      have hfil : ([Action.setStatus t "processing",
          Action.embedAudio (resolvePath (fp.getD "")),
          Action.markFailed t "Failed to generate embedding"].filter
            (isTerminalFor t))
          = [Action.markFailed t "Failed to generate embedding"] := by
        simp [List.filter, isTerminalFor_processing, isTerminalFor_markFailed,
          isTerminalFor]
      refine ⟨rfl, ⟨_, rfl⟩, ?_, ?_, ?_⟩
      · rw [hfil]
        rfl
      · constructor
        · intro h
          rw [hfil] at h
          exact absurd h (by simp)
        · intro hc
          rw [embedSucceeded, hr] at hc
          exact absurd hc.1 (by simp)
      · simp [noProcessingAfterTerminal, isTerminalFor_processing,
          isTerminalFor_markFailed, isTerminalFor]
  | vector emb =>
      cases storeOk with
      | true =>
          have hp2 : process_job a pe true (some ⟨some t, fp⟩)
              = ⟨[Action.setStatus t "processing",
                  Action.embedAudio (resolvePath (fp.getD "")),
                  Action.upsertEmb t emb,
                  Action.setStatus t "completed"], none⟩ := by
            unfold process_job
            simp only [if_neg hne]
            rw [hr]
            rfl
          rw [hp2]
          refine ⟨rfl, ⟨_, rfl⟩, ?_, ?_, ?_⟩
          · simp [List.filter, isTerminalFor_processing, isTerminalFor_completed,
              isTerminalFor]
          · constructor
            · intro _
              exact ⟨by rw [embedSucceeded, hr], rfl⟩
            · intro _
              simp [List.filter, isTerminalFor_processing, isTerminalFor_completed,
                isTerminalFor]
          · simp [noProcessingAfterTerminal, isTerminalFor_processing,
              isTerminalFor_completed, isTerminalFor, List.all,
              notProcessingWrite_completed, notProcessingWrite]
      | false =>
          have hp2 : process_job a pe false (some ⟨some t, fp⟩)
              = ⟨[Action.setStatus t "processing",
                  Action.embedAudio (resolvePath (fp.getD "")),
                  Action.upsertEmb t emb,
                  Action.markFailed t "Failed to store embedding"], none⟩ := by
            unfold process_job
            simp only [if_neg hne]
            rw [hr]
            rfl
          rw [hp2]
          have hfil : ([Action.setStatus t "processing",
              Action.embedAudio (resolvePath (fp.getD "")),
              Action.upsertEmb t emb,
              Action.markFailed t "Failed to store embedding"].filter
                (isTerminalFor t))
              = [Action.markFailed t "Failed to store embedding"] := by
            simp [List.filter, isTerminalFor_processing, isTerminalFor_markFailed,
              isTerminalFor]
          refine ⟨rfl, ⟨_, rfl⟩, ?_, ?_, ?_⟩
          · rw [hfil]
            rfl
          · constructor
            · intro h
              rw [hfil] at h
              exact absurd h (by simp)
            · intro hc
              exact absurd hc.2 (by simp)
          · simp [noProcessingAfterTerminal, isTerminalFor_processing,
              isTerminalFor_markFailed, isTerminalFor, List.all,
              notProcessingWrite]

/-- Witness for claim C2 at a concrete job, analyzer and store. -/
theorem worker_job_status_protocol_witness :
    (process_job smallAnalyzer (fun _ => true) true
        (some ⟨some "t1", some "album/song.mp3"⟩)).raised = none ∧
    (∃ rest, (process_job smallAnalyzer (fun _ => true) true
        (some ⟨some "t1", some "album/song.mp3"⟩)).trace
        = Action.setStatus "t1" "processing"
          :: Action.embedAudio (resolvePath ((some "album/song.mp3").getD ""))
          :: rest) ∧
    ((process_job smallAnalyzer (fun _ => true) true
        (some ⟨some "t1", some "album/song.mp3"⟩)).trace.filter
          (isTerminalFor "t1")).length = 1 ∧
    (((process_job smallAnalyzer (fun _ => true) true
        (some ⟨some "t1", some "album/song.mp3"⟩)).trace.filter
          (isTerminalFor "t1"))
        = [Action.setStatus "t1" "completed"]
      ↔ (embedSucceeded smallAnalyzer (fun _ => true)
            (resolvePath ((some "album/song.mp3").getD "")) = true ∧
           true = true)) ∧
    noProcessingAfterTerminal "t1"
      (process_job smallAnalyzer (fun _ => true) true
        (some ⟨some "t1", some "album/song.mp3"⟩)).trace = true :=
  worker_job_status_protocol smallAnalyzer (fun _ => true) true
    ⟨some "t1", some "album/song.mp3"⟩ "t1" rfl rfl (by decide)

/-- Claim C9: a dequeued job whose trackId is missing or empty is discarded
with an empty action trace: no status write, no inference call, no upsert. -/
theorem invalid_job_discarded (a : CLAPAnalyzer) (pe : String → Bool)
    (storeOk : Bool) (job : Job)
    (h : job.trackId = none ∨ job.trackId = some "") :
    process_job a pe storeOk (some job) = ⟨[], none⟩ := by
  obtain ⟨tid, fp⟩ := job
  rcases h with h | h
  · have h2 : tid = none := h
    subst h2
    rfl
  · have h2 : tid = some "" := h
    subst h2
    unfold process_job
    simp

/-- Witness for claim C9 on the two concrete invalid jobs. -/
theorem invalid_job_discarded_witness :
    process_job smallAnalyzer (fun _ => true) true
        (some ⟨none, some "a.mp3"⟩) = ⟨[], none⟩ ∧
    process_job smallAnalyzer (fun _ => true) true
        (some ⟨some "", some "a.mp3"⟩) = ⟨[], none⟩ :=
  ⟨invalid_job_discarded smallAnalyzer (fun _ => true) true ⟨none, some "a.mp3"⟩
      (Or.inl rfl),
   invalid_job_discarded smallAnalyzer (fun _ => true) true ⟨some "", some "a.mp3"⟩
      (Or.inr rfl)⟩

/-- Claim C10 fails in its final clause as stated: a job with no filePath
field resolves to the media root with a trailing separator appended
(`os.path.join` inserts the separator before the empty component), which as a
string is not the media root itself. -/
theorem resolve_path_counterexample :
    resolvePath "" = MUSIC_PATH ++ "/" ∧ ¬ resolvePath "" = MUSIC_PATH := by
  constructor
  · decide
  · decide

/-- Claim C10 (amended): for every job whose filePath, after
backslash-to-slash normalization, is absolute, the resolved path is that
absolute path unchanged and any media root is discarded; for a relative
filePath the resolved path is the media root, a separator, and the normalized
path; a job with no filePath field resolves to the media root with a trailing
separator appended (the media root directory itself, as a directory) and is
still processed: its trace still opens with the `processing` status write and
the inference call on that path. -/
theorem resolve_path_spec (root fp : String) (a : CLAPAnalyzer)
    (pe : String → Bool) (storeOk : Bool) (t : String) (ht : ¬ t = "") :
    (headIsSlash (normalizeSeps fp) = true →
      posixJoin root (normalizeSeps fp) = normalizeSeps fp) ∧
    (headIsSlash (normalizeSeps fp) = false →
      resolvePath fp = MUSIC_PATH ++ "/" ++ normalizeSeps fp) ∧
    resolvePath "" = MUSIC_PATH ++ "/" ∧
    (∃ rest, (process_job a pe storeOk (some ⟨some t, none⟩)).trace
        = Action.setStatus t "processing"
          :: Action.embedAudio (MUSIC_PATH ++ "/") :: rest) := by
  refine ⟨?_, ?_, ?_, ?_⟩
  · intro h
    unfold posixJoin
    rw [if_pos h]
  · intro h
    unfold resolvePath posixJoin
    rw [if_neg (by simp [h]), if_neg (by decide)]
  · decide
  · have hres : resolvePath ((none : Option String).getD "") = MUSIC_PATH ++ "/" := by
      decide
    cases hr : get_audio_embedding a pe (resolvePath ((none : Option String).getD "")) with
    | raised msg =>
        have hp : (process_job a pe storeOk (some ⟨some t, none⟩)).trace
            = [Action.setStatus t "processing",
               Action.embedAudio (resolvePath ((none : Option String).getD ""))] := by
          unfold process_job
          simp only [if_neg ht]
          rw [hr]
        rw [hp, hres]
        exact ⟨[], rfl⟩
    | errorSignal =>
        have hp : (process_job a pe storeOk (some ⟨some t, none⟩)).trace
            = [Action.setStatus t "processing",
               Action.embedAudio (resolvePath ((none : Option String).getD "")),
               Action.markFailed t "Failed to generate embedding"] := by
          unfold process_job
          simp only [if_neg ht]
          rw [hr]
        rw [hp, hres]
        exact ⟨_, rfl⟩
    | vector emb =>
        cases storeOk with
        | true =>
            have hp : (process_job a pe true (some ⟨some t, none⟩)).trace
                = [Action.setStatus t "processing",
                   Action.embedAudio (resolvePath ((none : Option String).getD "")),
                   Action.upsertEmb t emb,
                   Action.setStatus t "completed"] := by
              unfold process_job
              simp only [if_neg ht]
              rw [hr]
              rfl
            rw [hp, hres]
            exact ⟨_, rfl⟩
        | false =>
            have hp : (process_job a pe false (some ⟨some t, none⟩)).trace
                = [Action.setStatus t "processing",
                   Action.embedAudio (resolvePath ((none : Option String).getD "")),
                   Action.upsertEmb t emb,
                   Action.markFailed t "Failed to store embedding"] := by
              unfold process_job
              simp only [if_neg ht]
              rw [hr]
              rfl
            rw [hp, hres]
            exact ⟨_, rfl⟩

/-- Witness for the amended claim C10 at concrete paths and a concrete job;
on the absolute path the media root handed in is an arbitrary other root. -/
theorem resolve_path_spec_witness :
    posixJoin "/other" (normalizeSeps "\\abs\\x.mp3") = normalizeSeps "\\abs\\x.mp3" ∧
    resolvePath "album/song.mp3" = MUSIC_PATH ++ "/" ++ normalizeSeps "album/song.mp3" ∧
    resolvePath "" = MUSIC_PATH ++ "/" ∧
    (∃ rest, (process_job smallAnalyzer (fun _ => true) true
        (some ⟨some "t1", none⟩)).trace
        = Action.setStatus "t1" "processing"
          :: Action.embedAudio (MUSIC_PATH ++ "/") :: rest) :=
  ⟨(resolve_path_spec "/other" "\\abs\\x.mp3" smallAnalyzer (fun _ => true) true
      "t1" (by decide)).1 (by decide),
   (resolve_path_spec "/other" "album/song.mp3" smallAnalyzer (fun _ => true) true
      "t1" (by decide)).2.1 (by decide),
   (resolve_path_spec "/other" "album/song.mp3" smallAnalyzer (fun _ => true) true
      "t1" (by decide)).2.2.1,
   (resolve_path_spec "/other" "album/song.mp3" smallAnalyzer (fun _ => true) true
      "t1" (by decide)).2.2.2⟩

/-- Claim C4: for every trackId and error message, the `_mark_failed` update
sets the status to `failed`, stores the message truncated to its first 500
characters (hence never longer than 500), and increments the retry count by
one, a NULL prior count acting as 0, so that a NULL prior count becomes
exactly 1. -/
theorem mark_failed_truncates_and_increments (error : String) (row : TrackRow) :
    (mark_failed_row error row).analysisStatus = "failed" ∧
    (mark_failed_row error row).analysisError = some (pyTake error 500) ∧
    (pyTake error 500).length ≤ 500 ∧
    (mark_failed_row error row).analysisRetryCount
        = some (row.analysisRetryCount.getD 0 + 1) ∧
    (row.analysisRetryCount = none →
      (mark_failed_row error row).analysisRetryCount = some 1) := by
  refine ⟨rfl, rfl, ?_, rfl, ?_⟩
  · show (error.data.take 500).length ≤ 500
    rw [List.length_take]
    exact Nat.min_le_left _ _
  · intro h
    simp [mark_failed_row, h]

/-- Witness for claim C4 at a 600-character message and a row whose retry
count is NULL. -/
theorem mark_failed_truncates_and_increments_witness :
    (mark_failed_row (String.mk (List.replicate 600 'a'))
        ⟨"processing", none, none⟩).analysisStatus = "failed" ∧
    (mark_failed_row (String.mk (List.replicate 600 'a'))
        ⟨"processing", none, none⟩).analysisError
      = some (pyTake (String.mk (List.replicate 600 'a')) 500) ∧
    (pyTake (String.mk (List.replicate 600 'a')) 500).length ≤ 500 ∧
    (mark_failed_row (String.mk (List.replicate 600 'a'))
        ⟨"processing", none, none⟩).analysisRetryCount = some 1 :=
  ⟨(mark_failed_truncates_and_increments (String.mk (List.replicate 600 'a'))
      ⟨"processing", none, none⟩).1,
   (mark_failed_truncates_and_increments (String.mk (List.replicate 600 'a'))
      ⟨"processing", none, none⟩).2.1,
   (mark_failed_truncates_and_increments (String.mk (List.replicate 600 'a'))
      ⟨"processing", none, none⟩).2.2.1,
   (mark_failed_truncates_and_increments (String.mk (List.replicate 600 'a'))
      ⟨"processing", none, none⟩).2.2.2.2 rfl⟩

lemma upsertRows_cons_ne (r : EmbRow) (rest : List EmbRow) (new : EmbRow)
    (hr : (r.track_id == new.track_id) = false) :
    upsertRows (r :: rest) new = r :: upsertRows rest new := by
  unfold upsertRows
  simp only [List.any_cons, hr, Bool.false_or]
  have hne2 : ¬ r.track_id = new.track_id := by simpa using hr
  cases h2 : rest.any (fun x => x.track_id == new.track_id) with
  | true => simp [hne2]
  | false => simp

lemma map_overwrite_id (new : EmbRow) (l : List EmbRow)
    (hl : l.filter (fun x => x.track_id == new.track_id) = []) :
    l.map (fun x => if x.track_id == new.track_id then new else x) = l := by
  induction l with
  | nil => rfl
  | cons x xs ih =>
      have hx : (x.track_id == new.track_id) = false := by
        cases hc : (x.track_id == new.track_id) with
        | false => rfl
        | true =>
            rw [List.filter_cons_of_pos (by simpa using hc)] at hl
            exact absurd hl (by simp)
      have hxs : xs.filter (fun x => x.track_id == new.track_id) = [] := by
        rw [List.filter_cons_of_neg (by simp [hx])] at hl
        exact hl
      rw [List.map_cons, if_neg (by simp [hx]), ih hxs]

lemma filter_upsertRows (rows : List EmbRow) (new : EmbRow)
    (h : (rows.filter (fun r => r.track_id == new.track_id)).length ≤ 1) :
    (upsertRows rows new).filter (fun r => r.track_id == new.track_id)
      = [new] := by
  induction rows with
  | nil => simp [upsertRows]
  | cons r rest ih =>
      cases hr : (r.track_id == new.track_id) with
      | false =>
          rw [upsertRows_cons_ne r rest new hr,
            List.filter_cons_of_neg (by simp [hr])]
          apply ih
          rw [List.filter_cons_of_neg (by simp [hr])] at h
          exact h
      | true =>
          have hrest : rest.filter (fun x => x.track_id == new.track_id) = [] := by
            rw [List.filter_cons_of_pos (by simpa using hr)] at h
            simp only [List.length_cons] at h
            have h0 : (rest.filter (fun x => x.track_id == new.track_id)).length
                = 0 := by omega
            exact List.length_eq_zero.mp h0
          have hup : upsertRows (r :: rest) new = new :: rest := by
            unfold upsertRows
            rw [if_pos (by simp [hr]), List.map_cons, if_pos hr,
              map_overwrite_id new rest hrest]
          rw [hup, List.filter_cons_of_pos (by simp), hrest]

/-- Claim C7: `_store_embedding` is idempotent on the key.  Starting from a
table with at most one row for the trackId, two successful stores with the
same trackId and different vectors both return `True` and leave exactly one
row for that trackId, holding the latest vector, the model version and the
latest timestamp; the worker connection performs no reconnect; and a failed
store returns `False` and leaves the database exactly as it was (rollback,
not reconnect). -/
theorem upsert_embedding_idempotent (db : WorkerDB) (tid : String)
    (v1 v2 : Vec) (ts1 ts2 : Nat) (hv : ¬ v1 = v2)
    (hkey : (db.rows.filter (fun r => r.track_id == tid)).length ≤ 1) :
    (store_embedding true db tid v1 ts1).1 = true ∧
    (store_embedding true (store_embedding true db tid v1 ts1).2 tid v2 ts2).1
        = true ∧
    ((store_embedding true (store_embedding true db tid v1 ts1).2 tid v2
        ts2).2.rows.filter (fun r => r.track_id == tid))
        = [⟨tid, v2, MODEL_VERSION, ts2⟩] ∧
    ((store_embedding true (store_embedding true db tid v1 ts1).2 tid v2
        ts2).2.rows.filter (fun r => r.track_id == tid)).length = 1 ∧
    (store_embedding true (store_embedding true db tid v1 ts1).2 tid v2
        ts2).2.reconnects = db.reconnects ∧
    (∀ (db2 : WorkerDB) (tid2 : String) (v : Vec) (ts : Nat),
      store_embedding false db2 tid2 v ts = (false, db2)) := by
  have h1 : (upsertRows db.rows ⟨tid, v1, MODEL_VERSION, ts1⟩).filter
      (fun r => r.track_id == tid) = [⟨tid, v1, MODEL_VERSION, ts1⟩] :=
    filter_upsertRows db.rows ⟨tid, v1, MODEL_VERSION, ts1⟩ hkey
  have hlen1 : ((upsertRows db.rows ⟨tid, v1, MODEL_VERSION, ts1⟩).filter
      (fun r => r.track_id == tid)).length ≤ 1 := by
    rw [h1]
    exact Nat.le_refl 1
  have h2 : (upsertRows (upsertRows db.rows ⟨tid, v1, MODEL_VERSION, ts1⟩)
      ⟨tid, v2, MODEL_VERSION, ts2⟩).filter (fun r => r.track_id == tid)
      = [⟨tid, v2, MODEL_VERSION, ts2⟩] :=
    filter_upsertRows (upsertRows db.rows ⟨tid, v1, MODEL_VERSION, ts1⟩)
      ⟨tid, v2, MODEL_VERSION, ts2⟩ hlen1
  refine ⟨rfl, rfl, h2, ?_, rfl, fun db2 tid2 v ts => rfl⟩
  show ((upsertRows (upsertRows db.rows ⟨tid, v1, MODEL_VERSION, ts1⟩)
      ⟨tid, v2, MODEL_VERSION, ts2⟩).filter (fun r => r.track_id == tid)).length = 1
  rw [h2]
  rfl

/-- Witness for claim C7 on a concrete one-row table and two distinct
vectors. -/
theorem upsert_embedding_idempotent_witness :
    (store_embedding true ⟨[⟨"t1", [(9 : ℚ)], "old", 0⟩], 4⟩ "t1" [(1 : ℚ)] 1).1
        = true ∧
    (store_embedding true
        (store_embedding true ⟨[⟨"t1", [(9 : ℚ)], "old", 0⟩], 4⟩ "t1"
          [(1 : ℚ)] 1).2 "t1" [(2 : ℚ)] 2).1 = true ∧
    ((store_embedding true
        (store_embedding true ⟨[⟨"t1", [(9 : ℚ)], "old", 0⟩], 4⟩ "t1"
          [(1 : ℚ)] 1).2 "t1" [(2 : ℚ)] 2).2.rows.filter
        (fun r => r.track_id == "t1"))
        = [⟨"t1", [(2 : ℚ)], MODEL_VERSION, 2⟩] ∧
    ((store_embedding true
        (store_embedding true ⟨[⟨"t1", [(9 : ℚ)], "old", 0⟩], 4⟩ "t1"
          [(1 : ℚ)] 1).2 "t1" [(2 : ℚ)] 2).2.rows.filter
        (fun r => r.track_id == "t1")).length = 1 ∧
    (store_embedding true
        (store_embedding true ⟨[⟨"t1", [(9 : ℚ)], "old", 0⟩], 4⟩ "t1"
          [(1 : ℚ)] 1).2 "t1" [(2 : ℚ)] 2).2.reconnects = 4 :=
  ⟨(upsert_embedding_idempotent ⟨[⟨"t1", [(9 : ℚ)], "old", 0⟩], 4⟩ "t1"
      [(1 : ℚ)] [(2 : ℚ)] 1 2 (by decide) (by decide)).1,
   (upsert_embedding_idempotent ⟨[⟨"t1", [(9 : ℚ)], "old", 0⟩], 4⟩ "t1"
      [(1 : ℚ)] [(2 : ℚ)] 1 2 (by decide) (by decide)).2.1,
   (upsert_embedding_idempotent ⟨[⟨"t1", [(9 : ℚ)], "old", 0⟩], 4⟩ "t1"
      [(1 : ℚ)] [(2 : ℚ)] 1 2 (by decide) (by decide)).2.2.1,
   (upsert_embedding_idempotent ⟨[⟨"t1", [(9 : ℚ)], "old", 0⟩], 4⟩ "t1"
      [(1 : ℚ)] [(2 : ℚ)] 1 2 (by decide) (by decide)).2.2.2.1,
   (upsert_embedding_idempotent ⟨[⟨"t1", [(9 : ℚ)], "old", 0⟩], 4⟩ "t1"
      [(1 : ℚ)] [(2 : ℚ)] 1 2 (by decide) (by decide)).2.2.2.2.1⟩

lemma worker_loop_succ (stop : Nat → Bool) (mode : Nat → IterMode) (n i : Nat) :
    worker_loop stop mode (n + 1) i
      = if stop i = true then ([], ExitReason.stopped)
        else if survivesIter (mode i) = true then
          (iterEvents i (mode i) ++ (worker_loop stop mode n (i + 1)).1,
           (worker_loop stop mode n (i + 1)).2)
        else (iterEvents i (mode i), ExitReason.crashed) := rfl

lemma worker_loop_stopped_iff (stop : Nat → Bool) (mode : Nat → IterMode) :
    ∀ fuel i, (∀ k, k < fuel → survivesIter (mode (i + k)) = true) →
      ((worker_loop stop mode fuel i).2 = ExitReason.stopped ↔
        ∃ k, k < fuel ∧ stop (i + k) = true) := by
  intro fuel
  induction fuel with
  | zero =>
      intro i _
      constructor
      · intro h
        exact absurd h (by simp [worker_loop])
      · intro ⟨k, hk, _⟩
        omega
  | succ n ih =>
      intro i hsurv_all
      rw [worker_loop_succ]
      by_cases hs : stop i = true
      · rw [if_pos hs]
        constructor
        · intro _
          exact ⟨0, by omega, by simpa using hs⟩
        · intro _
          rfl
      · rw [if_neg hs]
        have hsurv : survivesIter (mode i) = true := by
          have h0 := hsurv_all 0 (by omega)
          rwa [Nat.add_zero] at h0
        rw [if_pos hsurv]
        show (worker_loop stop mode n (i + 1)).2 = ExitReason.stopped ↔ _
        rw [ih (i + 1) (fun k hk => by
          have hk2 := hsurv_all (k + 1) (by omega)
          rwa [show i + (k + 1) = i + 1 + k by omega] at hk2)]
        constructor
        · intro ⟨k, hk, h⟩
          refine ⟨k + 1, by omega, ?_⟩
          rw [show i + (k + 1) = i + 1 + k by omega]
          exact h
        · intro ⟨k, hk, h⟩
          cases k with
          | zero =>
              rw [Nat.add_zero] at h
              exact absurd h hs
          | succ k2 =>
              refine ⟨k2, by omega, ?_⟩
              rw [show i + 1 + k2 = i + (k2 + 1) by omega]
              exact h

lemma worker_loop_trace (stop : Nat → Bool) (mode : Nat → IterMode) :
    ∀ fuel i, (∀ k, k < fuel → survivesIter (mode (i + k)) = true) →
      (∀ k, k < fuel → stop (i + k) = false) →
      (worker_loop stop mode fuel i).1
        = ((List.range' i fuel).map (fun k => iterEvents k (mode k))).flatten := by
  intro fuel
  induction fuel with
  | zero =>
      intro i _ _
      simp [worker_loop]
  | succ n ih =>
      intro i hsurv_all h
      have hs : stop i = false := by
        have h0 := h 0 (by omega)
        rwa [Nat.add_zero] at h0
      have hsurv : survivesIter (mode i) = true := by
        have h0 := hsurv_all 0 (by omega)
        rwa [Nat.add_zero] at h0
      rw [worker_loop_succ, if_neg (by simp [hs]), if_pos hsurv]
      show iterEvents i (mode i) ++ (worker_loop stop mode n (i + 1)).1 = _
      rw [ih (i + 1)
        (fun k hk => by
          have hk2 := hsurv_all (k + 1) (by omega)
          rwa [show i + (k + 1) = i + 1 + k by omega] at hk2)
        (fun k hk => by
          have hk2 := h (k + 1) (by omega)
          rwa [show i + (k + 1) = i + 1 + k by omega] at hk2)]
      rw [List.range'_succ]
      simp

lemma worker_loop_crashed_inv (stop : Nat → Bool) (mode : Nat → IterMode) :
    ∀ fuel i, (worker_loop stop mode fuel i).2 = ExitReason.crashed →
      ∃ k, k < fuel ∧ mode (i + k) = IterMode.dbError false := by
  intro fuel
  induction fuel with
  | zero =>
      intro i h
      exact absurd h (by simp [worker_loop])
  | succ n ih =>
      intro i h
      rw [worker_loop_succ] at h
      by_cases hs : stop i = true
      · rw [if_pos hs] at h
        exact absurd h (by simp)
      · rw [if_neg hs] at h
        by_cases hsurv : survivesIter (mode i) = true
        · rw [if_pos hsurv] at h
          obtain ⟨k, hk, hm⟩ := ih (i + 1) h
          refine ⟨k + 1, by omega, ?_⟩
          rwa [show i + (k + 1) = i + 1 + k by omega]
        · refine ⟨0, by omega, ?_⟩
          rw [Nat.add_zero]
          cases hm : mode i with
          | ok =>
              rw [hm] at hsurv
              exact absurd rfl hsurv
          | dbError b =>
              cases b with
              | true =>
                  rw [hm] at hsurv
                  exact absurd rfl hsurv
              | false => rfl
          | otherError =>
              rw [hm] at hsurv
              exact absurd rfl hsurv

/-- Claim C8 fails as stated: `DatabaseConnection.connect()` raises when the
database is still unreachable and nothing inside the `except psycopg2.Error`
handler catches it, so the exception escapes `Worker.start`'s loop and the
loop can end with the stop flag never set.  Here every iteration raises a
database error whose handler reconnect also raises, the stop flag is
constantly false, and the loop ends as crashed, not stopped. -/
theorem worker_loop_crash_counterexample :
    (worker_loop (fun _ => false) (fun _ => IterMode.dbError false) 5 0).2
        = ExitReason.crashed ∧
    ¬ (worker_loop (fun _ => false) (fun _ => IterMode.dbError false) 5 0).2
        = ExitReason.stopped := by
  constructor
  · rfl
  · decide

/-- Claim C8 (amended): the worker loop is not ended by a single bad job so
long as its recovery succeeds.  Within any observation window in which every
reconnect performed by the database-error handler succeeds, the loop exits
exactly when the cooperative stop flag is seen set at some iteration of the
window, and when the flag is never set its event trace runs through every
iteration in order, a database (connection) error contributing a reconnect
and a sleep before the next iteration and any other exception contributing a
sleep (after being logged) before the next iteration.  An exit other than by
the stop flag (`crashed`) happens only when some iteration raised a database
error whose handler reconnect itself raised (database still unreachable, see
the counterexample); such an iteration contributes its reconnect attempt but
never reaches the sleep. -/
theorem worker_loop_resilience (stop : Nat → Bool) (mode : Nat → IterMode)
    (fuel i : Nat) :
    ((∀ k, k < fuel → survivesIter (mode (i + k)) = true) →
      (((worker_loop stop mode fuel i).2 = ExitReason.stopped ↔
          ∃ k, k < fuel ∧ stop (i + k) = true) ∧
        ((∀ k, k < fuel → stop (i + k) = false) →
          (worker_loop stop mode fuel i).1
            = ((List.range' i fuel).map
                (fun k => iterEvents k (mode k))).flatten))) ∧
    ((worker_loop stop mode fuel i).2 = ExitReason.crashed →
      ∃ k, k < fuel ∧ mode (i + k) = IterMode.dbError false) ∧
    (∀ j, iterEvents j (IterMode.dbError true)
        = [WEvent.ranJob j, WEvent.reconnect, WEvent.sleep]) ∧
    (∀ j, iterEvents j (IterMode.dbError false)
        = [WEvent.ranJob j, WEvent.reconnect]) ∧
    (∀ j, iterEvents j IterMode.otherError = [WEvent.ranJob j, WEvent.sleep]) :=
  ⟨fun hsurv_all => ⟨worker_loop_stopped_iff stop mode fuel i hsurv_all,
      worker_loop_trace stop mode fuel i hsurv_all⟩,
   worker_loop_crashed_inv stop mode fuel i,
   fun _ => rfl, fun _ => rfl, fun _ => rfl⟩

/-- A concrete outcome schedule on which every reconnect succeeds: a database
error with a successful reconnect at iteration 1, another exception at
iteration 2, normal processing elsewhere. -/
def sampleModes (n : Nat) : IterMode :=
  if n = 1 then IterMode.dbError true
  else if n = 2 then IterMode.otherError
  else IterMode.ok

lemma sampleModes_survives (n : Nat) : survivesIter (sampleModes n) = true := by
  unfold sampleModes
  by_cases h1 : n = 1
  · rw [if_pos h1]
    rfl
  · rw [if_neg h1]
    by_cases h2 : n = 2
    · rw [if_pos h2]
      rfl
    · rw [if_neg h2]
      rfl

/-- A schedule whose iteration 2 raises a database error and whose handler
reconnect then also raises. -/
def crashModes (n : Nat) : IterMode :=
  if n = 2 then IterMode.dbError false else IterMode.ok

/-- Witness for the amended claim C8: with every reconnect succeeding and the
stop flag first set at iteration 3 the loop exits as stopped; with the flag
never set its trace over a window of 3 iterations is the full concatenation
of its per-iteration events; and a run that ends crashed does contain an
iteration whose reconnect failed. -/
theorem worker_loop_resilience_witness :
    (worker_loop (fun n => decide (n = 3)) sampleModes 10 0).2
        = ExitReason.stopped ∧
    (worker_loop (fun _ => false) sampleModes 3 0).1
        = ((List.range' 0 3).map (fun k => iterEvents k (sampleModes k))).flatten ∧
    (∃ k, k < 5 ∧ crashModes (0 + k) = IterMode.dbError false) :=
  ⟨((worker_loop_resilience (fun n => decide (n = 3)) sampleModes 10 0).1
      (fun k _ => sampleModes_survives (0 + k))).1.mpr ⟨3, by omega, by decide⟩,
   ((worker_loop_resilience (fun _ => false) sampleModes 3 0).1
      (fun k _ => sampleModes_survives (0 + k))).2 (fun k _ => rfl),
   (worker_loop_resilience (fun _ => false) crashModes 5 0).2.1 (by decide)⟩

lemma lookup_buildResponse_requestId (rid : String) (e : Option Vec) :
    List.lookup "requestId" (buildResponse rid e) = some (JVal.str rid) := rfl

lemma lookup_buildResponse_success (rid : String) (e : Option Vec) :
    List.lookup "success" (buildResponse rid e) = some (JVal.bool e.isSome) := rfl

lemma lookup_buildResponse_embedding_none (rid : String) :
    List.lookup "embedding" (buildResponse rid none) = some JVal.null := rfl

lemma get_text_embedding_blank (a : CLAPAnalyzer) (s : String)
    (hload : a.modelLoaded = true) (hb : isBlank s = true) :
    get_text_embedding a s = EmbedResult.errorSignal := by
  unfold get_text_embedding
  rw [if_neg (by simp [hload]), if_pos hb]

lemma get_text_embedding_raised_inv (a : CLAPAnalyzer) (s msg : String)
    (h : get_text_embedding a s = EmbedResult.raised msg) :
    a.modelLoaded = false := by
  unfold get_text_embedding at h
  by_cases h1 : a.modelLoaded = false
  · exact h1
  · rw [if_neg h1] at h
    by_cases h2 : isBlank s = true
    · rw [if_pos h2] at h
      exact absurd h (by simp)
    · rw [if_neg h2] at h
      cases h3 : a.textModel s with
      | none => rw [h3] at h; exact absurd h (by simp)
      | some emb => rw [h3] at h; exact absurd h (by simp)

/-- Claim C5 fails as stated in two places: (a) on an empty-text request with
requestId "r1" the handler does publish a failure response, but that response
carries an `embedding` field (present, with JSON value null), not "no
embedding field"; (b) a request whose requestId is present but empty is
dropped with no response at all. -/
theorem text_embed_empty_counterexample :
    (∃ p, handle_message smallAnalyzer ⟨some "r1", some ""⟩ = [p] ∧
      List.lookup "embedding" p.payload = some JVal.null) ∧
    (⟨some "", some ""⟩ : TextRequest).requestId = some "" ∧
    handle_message smallAnalyzer ⟨some "", some ""⟩ = [] := by
  refine ⟨⟨⟨RESPONSE_CHANNEL_BASE ++ "r1", buildResponse "r1" none⟩, ?_, rfl⟩,
    rfl, rfl⟩
  rfl

/-- Claim C5 (amended): for every text-embed request whose requestId is
present and non-empty and whose text is empty or whitespace-only (processed
with the model loaded), `get_text_embedding` fails with the invalid-input
error signal and the single published response has success false and a null
`embedding` value (the field is present and null). -/
theorem text_embed_blank_response (a : CLAPAnalyzer) (req : TextRequest)
    (rid : String) (hload : a.modelLoaded = true)
    (hrid : req.requestId = some rid) (hne : ¬ rid = "")
    (hblank : isBlank (req.text.getD "") = true) :
    get_text_embedding a (req.text.getD "") = EmbedResult.errorSignal ∧
    handle_message a req
      = [⟨RESPONSE_CHANNEL_BASE ++ rid, buildResponse rid none⟩] ∧
    List.lookup "success" (buildResponse rid (none : Option Vec))
      = some (JVal.bool false) ∧
    List.lookup "embedding" (buildResponse rid (none : Option Vec))
      = some JVal.null := by
  obtain ⟨rq, tx⟩ := req
  have h2 : rq = some rid := hrid
  subst h2
  have hsig : get_text_embedding a (tx.getD "") = EmbedResult.errorSignal :=
    get_text_embedding_blank a (tx.getD "") hload hblank
  have hh : handle_message a ⟨some rid, tx⟩
      = [⟨RESPONSE_CHANNEL_BASE ++ rid, buildResponse rid none⟩] := by
    unfold handle_message
    simp only [if_neg hne]
    rw [hsig]
  exact ⟨hsig, hh, rfl, rfl⟩

/-- Witness for the amended claim C5 at a whitespace-only request. -/
theorem text_embed_blank_response_witness :
    get_text_embedding smallAnalyzer "   " = EmbedResult.errorSignal ∧
    handle_message smallAnalyzer ⟨some "r7", some "   "⟩
      = [⟨RESPONSE_CHANNEL_BASE ++ "r7", buildResponse "r7" none⟩] ∧
    List.lookup "success" (buildResponse "r7" (none : Option Vec))
      = some (JVal.bool false) ∧
    List.lookup "embedding" (buildResponse "r7" (none : Option Vec))
      = some JVal.null :=
  text_embed_blank_response smallAnalyzer ⟨some "r7", some "   "⟩ "r7" rfl rfl
    (by decide) (by decide)

/-- Claim C6 fails as stated: a parseable request whose requestId is present
but empty is not answered; the handler drops it exactly as it drops a missing
requestId (Python falsy test), publishing nothing. -/
theorem text_embed_empty_requestId_counterexample :
    (⟨some "", some "hello"⟩ : TextRequest).requestId.isSome = true ∧
    handle_message smallAnalyzer ⟨some "", some "hello"⟩ = [] :=
  ⟨rfl, rfl⟩

/-- Claim C6 (amended): for every parseable text-embed request processed with
the model loaded, if requestId is missing or empty the message is dropped and
no response is published; otherwise exactly one response is published, to the
channel formed by the fixed stem concatenated with the requestId, carrying the
same requestId, and its success flag is true exactly when `get_text_embedding`
produced a vector. -/
theorem text_embed_response_correlation (a : CLAPAnalyzer) (req : TextRequest)
    (hload : a.modelLoaded = true) :
    ((req.requestId = none ∨ req.requestId = some "") →
      handle_message a req = []) ∧
    (∀ rid, req.requestId = some rid → ¬ rid = "" →
      ∃ p, handle_message a req = [p] ∧
        p.channel = RESPONSE_CHANNEL_BASE ++ rid ∧
        List.lookup "requestId" p.payload = some (JVal.str rid) ∧
        (List.lookup "success" p.payload = some (JVal.bool true) ↔
          ∃ v, get_text_embedding a (req.text.getD "")
            = EmbedResult.vector v)) := by
  obtain ⟨rq, tx⟩ := req
  constructor
  · intro h
    rcases h with h | h
    · have h2 : rq = none := h
      subst h2
      rfl
    · have h2 : rq = some "" := h
      subst h2
      rfl
  · intro rid hr hne
    have h2 : rq = some rid := hr
    subst h2
    cases hemb : get_text_embedding a (tx.getD "") with
    | raised msg =>
        have hf := get_text_embedding_raised_inv a (tx.getD "") msg hemb
        rw [hf] at hload
        exact absurd hload (by decide)
    | errorSignal =>
        have hh : handle_message a ⟨some rid, tx⟩
            = [⟨RESPONSE_CHANNEL_BASE ++ rid, buildResponse rid none⟩] := by
          unfold handle_message
          simp only [if_neg hne]
          rw [hemb]
        refine ⟨⟨RESPONSE_CHANNEL_BASE ++ rid, buildResponse rid none⟩,
          hh, rfl, rfl, ?_⟩
        constructor
        · intro h
          rw [lookup_buildResponse_success] at h
          exact absurd h (by simp)
        · intro ⟨v, hv2⟩
          exact absurd hv2 (by simp)
    | vector v =>
        have hh : handle_message a ⟨some rid, tx⟩
            = [⟨RESPONSE_CHANNEL_BASE ++ rid, buildResponse rid (some v)⟩] := by
          unfold handle_message
          simp only [if_neg hne]
          rw [hemb]
        refine ⟨⟨RESPONSE_CHANNEL_BASE ++ rid, buildResponse rid (some v)⟩,
          hh, rfl, rfl, ?_⟩
        constructor
        · intro _
          exact ⟨v, rfl⟩
        · intro _
          rw [lookup_buildResponse_success]
          rfl

/-- Witness for the amended claim C6: a missing requestId is dropped, and a
well-formed request is answered on its derived channel. -/
theorem text_embed_response_correlation_witness :
    handle_message smallAnalyzer ⟨none, some "hello"⟩ = [] ∧
    (∃ p, handle_message smallAnalyzer ⟨some "r2", some "nice jazz"⟩ = [p] ∧
      p.channel = RESPONSE_CHANNEL_BASE ++ "r2" ∧
      List.lookup "requestId" p.payload = some (JVal.str "r2") ∧
      (List.lookup "success" p.payload = some (JVal.bool true) ↔
        ∃ v, get_text_embedding smallAnalyzer "nice jazz"
          = EmbedResult.vector v)) :=
  ⟨(text_embed_response_correlation smallAnalyzer ⟨none, some "hello"⟩ rfl).1
      (Or.inl rfl),
   (text_embed_response_correlation smallAnalyzer ⟨some "r2", some "nice jazz"⟩
      rfl).2 "r2" rfl (by decide)⟩

end Lidify
